import Mathlib

/-!
# Verification of the Foundry DevTools token providers

Shallow embedding of `src/libs/foundry-dev-tools/src/foundry_dev_tools/config/token_provider.py`.

Python time values (`time.time()`, `_valid_until`, `expires_in`) are modelled as integers `ℤ`
(every claim involves only ordering and addition of times, never fractional values);
a token is an opaque string; fallible Python code returns `Except PyError`.
External effects (the HTTP response of the token endpoint, the hosting-framework header
dictionaries, the external OAuth client's result) are passed in as explicit arguments,
so every function here is a pure translation of the corresponding Python code.
-/

/-- A token is an opaque string (`Token` from `config_types`). -/
abbrev Token := String

/-- Modelled from the spec: `Host` (from `config_types`, not in src) identifies the target
service; the source uses its `url` (base URL) and `domain` attributes. -/
structure Host where
  url : String
  domain : String
deriving DecidableEq, Repr

/-- A JSON scalar value, enough to model the token-endpoint response body. -/
inductive JsonValue where
  | str (s : String)
  | num (q : ℤ)
deriving DecidableEq, Repr

/-- A JSON object: association list of fields (Python dict from `.json()`). -/
abbrev JsonObj := List (String × JsonValue)

/-- The Python exceptions raised by `token_provider.py`. -/
inductive PyError where
  | notImplementedError (msg : String)
  | tokenProviderConfigError (msg : String)
  | foundryAPIError (body : JsonObj)
  | keyError (key : String)
  | typeError (msg : String)
  | attributeError (msg : String)
deriving DecidableEq, Repr

/-- State of `CachedTokenProvider`: class attributes `_cached : Token | None = None`,
`_valid_until : float = -1`, `_clock_skew : int = 10`. -/
structure CachedTokenProvider where
  cached : Option Token := none
  valid_until : ℤ := -1
  clock_skew : ℤ := 10
deriving DecidableEq, Repr

/-- Python truthiness of `self._cached` (`Token | None`): `None` and `""` are falsy. -/
def truthyToken : Option Token → Bool
  | none => false
  | some t => !t.isEmpty

/-- Translation of `CachedTokenProvider.invalidate_cache`: sets `_cached = None` and
`_valid_until = -1`. -/
def CachedTokenProvider.invalidate_cache (s : CachedTokenProvider) : CachedTokenProvider :=
  { s with cached := none, valid_until := -1 }

/-- The condition of `CachedTokenProvider.token`:
`not self._cached or self._valid_until < time.time() + 10`. -/
def CachedTokenProvider.needsRefresh (s : CachedTokenProvider) (now : ℤ) : Bool :=
  !truthyToken s.cached || decide (s.valid_until < now + 10)

/-- Translation of the `CachedTokenProvider.token` property: the outcome of `self._request_token()` is passed in as
`requestToken`; returns the produced token (or the propagated exception) together with the
post-state.  On refresh, `self._cached, self._valid_until = self._request_token()` and the new
`_cached` is returned; on a cache hit the cached token is returned and nothing is written. -/
def CachedTokenProvider.token (s : CachedTokenProvider) (now : ℤ)
    (requestToken : Except PyError (Token × ℤ)) :
    Except PyError Token × CachedTokenProvider :=
  if s.needsRefresh now then
    match requestToken with
    | .error e => (.error e, s)
    | .ok (t, v) => (.ok t, { s with cached := some t, valid_until := v })
  else
    (.ok (s.cached.getD ""), s)

/-- Number of `_request_token()` invocations a single `token` call performs: the body of the
`if` in `CachedTokenProvider.token` contains exactly one call. -/
def CachedTokenProvider.acquisitions (s : CachedTokenProvider) (now : ℤ) : Nat :=
  if s.needsRefresh now then 1 else 0

/-- Code point of a character after Python `str.lower()`; header names are ASCII, where
lowering adds 32 to the code of an upper-case letter. -/
def lowerNat (c : Char) : ℕ :=
  if 65 ≤ c.toNat ∧ c.toNat ≤ 90 then c.toNat + 32 else c.toNat

/-- Case-insensitive key equality: Python `a.lower() == b.lower()`. -/
def ciKeyEq (a b : String) : Bool :=
  a.toList.map lowerNat == b.toList.map lowerNat

/-- Case-insensitive header lookup, as performed by requests' `CaseInsensitiveDict` and by
werkzeug's `Headers.get`. -/
def ciLookup (hs : List (String × String)) (k : String) : Option String :=
  (hs.find? (fun p => ciKeyEq p.1 k)).map (fun p => p.2)

/-- Python `headers.setdefault(k, v)` on a case-insensitive header mapping: if the key is
already present (under any casing) nothing changes, otherwise the pair is added. -/
def ciSetdefault (hs : List (String × String)) (k v : String) : List (String × String) :=
  if (ciLookup hs k).isSome then hs else hs ++ [(k, v)]

/-- Translation of `TokenProvider.requests_auth_handler`: the provider's token is passed in as
`tok`; the function acts on the request's header mapping,
setting a default bearer authorization header. -/
def TokenProvider.requests_auth_handler (tok : Token) (headers : List (String × String)) :
    List (String × String) :=
  ciSetdefault headers "authorization" ("Bearer " ++ tok)

/-- The module constant `DEFAULT_OAUTH_SCOPES` (lines 97-105 of the source). -/
def DEFAULT_OAUTH_SCOPES : List String :=
  ["offline_access", "compass:view", "compass:edit", "compass:discover",
   "api:write-data", "api:read-data", "build2:run-build-using-service"]

/-- Modelled from the spec: `FoundryOAuthGrantType` (from `config_types`, not in src) is the
OAuth2 flow variant enum; the spec names the two variants authorization-code (user-interactive)
and client-credentials (service-to-service). -/
inductive FoundryOAuthGrantType where
  | authorization_code
  | client_credentials
deriving DecidableEq, Repr

/-- Python `str()` rendering of a `FoundryOAuthGrantType` member, used in error messages. -/
def FoundryOAuthGrantType.pyStr : FoundryOAuthGrantType → String
  | .authorization_code => "FoundryOAuthGrantType.authorization_code"
  | .client_credentials => "FoundryOAuthGrantType.client_credentials"

/-- State of a constructed `OAuthTokenProvider` (a `CachedTokenProvider` subclass). -/
structure OAuthTokenProvider extends CachedTokenProvider where
  host : Host
  grant_type : FoundryOAuthGrantType
  client_id : String
  client_secret : Option String
  scopes : List String
deriving DecidableEq, Repr

/-- Python `scopes or []`: `None` and the empty list are falsy. -/
def pyListOr (a : Option (List String)) (b : List String) : List String :=
  match a with
  | none => b
  | some s => if s.isEmpty then b else s

/-- Translation of `OAuthTokenProvider.__init__`.  `grant_type or "authorization_code"` is the
`Option.getD`; the constructor raises `TokenProviderConfigError` for the client-credentials
grant with no secret, and otherwise picks the scope default per grant type. -/
def OAuthTokenProvider.init (host : Host) (client_id : String)
    (client_secret : Option String) (grant_type : Option FoundryOAuthGrantType)
    (scopes : Option (List String)) : Except PyError OAuthTokenProvider :=
  let gt := grant_type.getD .authorization_code
  if gt = .client_credentials ∧ client_secret = none then
    .error (.tokenProviderConfigError
      "You need to provide a client secret for the client credentials grant type.")
  else
    .ok { host := host
          grant_type := gt
          client_id := client_id
          client_secret := client_secret
          scopes :=
            if gt = .authorization_code then
              match scopes with
              | some s => s
              | none => DEFAULT_OAUTH_SCOPES
            else pyListOr scopes [] }

/-- The base64 alphabet of RFC 4648, as used by Python `base64.b64encode`. -/
def base64Alphabet : List Char :=
  "ABCDEFGHIJKLMNOPQRSTUVWXYZabcdefghijklmnopqrstuvwxyz0123456789+/".toList

/-- Character of a 6-bit group. -/
def base64Char (n : ℕ) : Char := base64Alphabet.getD n '?'

/-- Python `base64.b64encode(..).decode("ascii")` on a byte sequence. -/
def b64encode : List ℕ → String
  | [] => ""
  | [b1] => String.mk [base64Char (b1 / 4), base64Char (b1 % 4 * 16)] ++ "=="
  | [b1, b2] =>
      String.mk [base64Char (b1 / 4), base64Char (b1 % 4 * 16 + b2 / 16),
        base64Char (b2 % 16 * 4)] ++ "="
  | b1 :: b2 :: b3 :: rest =>
      String.mk [base64Char (b1 / 4), base64Char (b1 % 4 * 16 + b2 / 16),
        base64Char (b2 % 16 * 4 + b3 / 64), base64Char (b3 % 64)] ++ b64encode rest

/-- Python `bytes(s, "ISO-8859-1")`: one byte per code point; code points above U+00FF raise
`UnicodeEncodeError`, modelled as `none`. -/
def latin1Encode (s : String) : Option (List ℕ) :=
  if s.toList.all (fun c => c.toNat < 256) then some (s.toList.map Char.toNat) else none

/-- A value of the `data` form dict passed to `requests.request`: the source passes the plain
string `"client_credentials"` for `grant_type` and the Python list `self.scopes` (not a joined
string) for `scope`. -/
inductive FormValue where
  | str (s : String)
  | list (l : List String)
deriving DecidableEq, Repr

/-- The arguments the source hands to `requests.request` for the client-credentials exchange. -/
structure HttpRequest where
  method : String
  url : String
  data : List (String × FormValue)
  headers : List (String × String)
  timeout : ℤ
deriving DecidableEq, Repr

/-- The outbound request built by `OAuthTokenProvider._request_token` on the
client-credentials path (source lines 163-177); `none` models the `UnicodeEncodeError` of
`bytes(client_id + ":" + client_secret, "ISO-8859-1")` on non-Latin-1 input. -/
def clientCredentialsRequest (host : Host) (client_id client_secret : String)
    (scopes : List String) : Option HttpRequest :=
  (latin1Encode (client_id ++ ":" ++ client_secret)).map fun bs =>
    { method := "POST"
      url := host.url ++ "/multipass/api/oauth2/token"
      data := [("grant_type", .str "client_credentials"), ("scope", .list scopes)]
      headers := [("Content-Type", "application/x-www-form-urlencoded"),
        ("Authorization", "Basic " ++ b64encode bs)]
      timeout := 30 }

/-- Python dict lookup on a JSON object. -/
def jsonLookup (o : JsonObj) (k : String) : Option JsonValue :=
  (o.find? (fun p => p.1 == k)).map (fun p => p.2)

/-- Python membership test `k in o` on a JSON object (dict). -/
def jsonHasKey (o : JsonObj) (k : String) : Bool := (jsonLookup o k).isSome

/-- Python subscript `o[k]`: `KeyError` if the key is missing. -/
def jsonGet (o : JsonObj) (k : String) : Except PyError JsonValue :=
  match jsonLookup o k with
  | some v => .ok v
  | none => .error (.keyError k)

/-- Parsing of the token-endpoint JSON response in `_request_token` (source lines 179-181):
`FoundryAPIError(credentials)` when an `error` field is present, otherwise the pair
`credentials["access_token"], credentials["expires_in"] + time.time()`.  A non-string
`access_token` or a non-numeric `expires_in` cannot produce a `(Token, float)` pair and is
mapped to a `TypeError`. -/
def parseClientCredentialsResponse (credentials : JsonObj) (now : ℤ) :
    Except PyError (Token × ℤ) :=
  if jsonHasKey credentials "error" then
    .error (.foundryAPIError credentials)
  else
    match jsonGet credentials "access_token" with
    | .error e => .error e
    | .ok tv =>
      match jsonGet credentials "expires_in" with
      | .error e => .error e
      | .ok ev =>
        match tv, ev with
        | .str t, .num q => .ok (t, q + now)
        | _, _ => .error (.typeError "unsupported operand type")

/-- Translation of `OAuthTokenProvider._request_token`.  The two external effects are passed
in: `userCredentials` is what `palantir_oauth_client.get_user_credentials(...)` would return
(`credentials.token` and `credentials.expiry.timestamp()`), and `response` is the JSON body
the token endpoint answers with. -/
def OAuthTokenProvider.request_token (p : OAuthTokenProvider)
    (userCredentials : Token × ℤ) (response : JsonObj) (now : ℤ) :
    Except PyError (Token × ℤ) :=
  if p.grant_type = .authorization_code then
    .ok userCredentials
  else if p.grant_type = .client_credentials ∧ p.client_secret ≠ none then
    parseClientCredentialsResponse response now
  else if p.client_secret = none then
    .error (.attributeError
      ("For grant type " ++ p.grant_type.pyStr ++ " you need to set a client_secret."))
  else
    .error (.notImplementedError
      ("Grant type " ++ p.grant_type.pyStr ++ " is not implemented."))

/-- The class attribute `AppServiceTokenProvider.header`. -/
def AppServiceTokenProvider.header : String := "X-Foundry-AccessToken"

/-- One hosting-framework lookup of `AppServiceTokenProvider.__init__`: the walrus pattern
`(headers := ...) and (token := CaseInsensitiveDict(headers).get(self.header))`.  `none` for
the whole header source models an unavailable context (ImportError, `request is None`,
RuntimeError) or falsy headers; a found but empty header value is falsy as well. -/
def AppServiceTokenProvider.headerToken (hs : Option (List (String × String))) : Option Token :=
  match hs with
  | none => none
  | some l =>
    match ciLookup l AppServiceTokenProvider.header with
    | none => none
    | some t => if t.isEmpty then none else some t

/-- Translation of `AppServiceTokenProvider.__init__`: try the streamlit websocket headers,
then the flask request headers; the first truthy match is cached with a one-hour validity
(`time.time() + 3600`); otherwise construction raises `TokenProviderConfigError`. -/
def AppServiceTokenProvider.init (now : ℤ)
    (websocketHeaders flaskHeaders : Option (List (String × String))) :
    Except PyError CachedTokenProvider :=
  match AppServiceTokenProvider.headerToken websocketHeaders with
  | some t => .ok { cached := some t, valid_until := now + 3600 }
  | none =>
    match AppServiceTokenProvider.headerToken flaskHeaders with
    | some t => .ok { cached := some t, valid_until := now + 3600 }
    | none => .error (.tokenProviderConfigError
        "Could not get Foundry token from flask/dash/streamlit headers.")

/-- Translation of `AppServiceTokenProvider._request_token`: unconditionally raises
`TokenProviderConfigError`. -/
def AppServiceTokenProvider.request_token : Except PyError (Token × ℤ) :=
  .error (.tokenProviderConfigError "Token is expired. Please refresh the web page.")

/-- The outbound request as claim C4 words it, with the `scope` body field equal to the
space-joined scope list; written from the spec for comparison with
`clientCredentialsRequest`. -/
def clientCredentialsRequestSpecJoined (host : Host) (client_id client_secret : String)
    (scopes : List String) : Option HttpRequest :=
  (latin1Encode (client_id ++ ":" ++ client_secret)).map fun bs =>
    { method := "POST"
      url := host.url ++ "/multipass/api/oauth2/token"
      data := [("grant_type", .str "client_credentials"),
        ("scope", .str (String.intercalate " " scopes))]
      headers := [("Content-Type", "application/x-www-form-urlencoded"),
        ("Authorization", "Basic " ++ b64encode bs)]
      timeout := 30 }

/-! ## Shared lemmas -/

/-- A record below the `now + 10` freshness margin triggers the refresh branch. -/
theorem needsRefresh_of_lt (s : CachedTokenProvider) (now : ℤ)
    (h : s.valid_until < now + 10) : s.needsRefresh now = true :=
  (Bool.or_eq_true _ _).mpr (Or.inr (decide_eq_true h))

/-- With no `error` field, the response parser never produces a `FoundryAPIError`. -/
theorem parse_cc_no_api_error (response : JsonObj) (now : ℤ)
    (hk : jsonHasKey response "error" = false) (body : JsonObj) :
    parseClientCredentialsResponse response now ≠ .error (.foundryAPIError body) := by
  intro h
  unfold parseClientCredentialsResponse at h
  rw [hk] at h
  simp only [Bool.false_eq_true, if_false] at h
  rcases hga : jsonGet response "access_token" with e1 | tv <;> rw [hga] at h
  · cases hga2 : jsonLookup response "access_token" <;>
      simp [jsonGet, hga2] at hga <;> simp [← hga] at h
  · rcases hge : jsonGet response "expires_in" with e2 | ev <;> rw [hge] at h
    · cases hge2 : jsonLookup response "expires_in" <;>
        simp [jsonGet, hge2] at hge <;> simp [← hge] at h
    · cases tv <;> cases ev <;> simp at h

/-- With an `error` field, the parser raises `FoundryAPIError` on the full body. -/
theorem parse_cc_api_error (response : JsonObj) (now : ℤ)
    (hk : jsonHasKey response "error" = true) :
    parseClientCredentialsResponse response now = .error (.foundryAPIError response) := by
  simp [parseClientCredentialsResponse, hk]

/-- With no `error` field and well-formed token fields, the parser succeeds. -/
theorem parse_cc_success (response : JsonObj) (now : ℤ) (t : Token) (q : ℤ)
    (hk : jsonHasKey response "error" = false)
    (ht : jsonLookup response "access_token" = some (.str t))
    (he : jsonLookup response "expires_in" = some (.num q)) :
    parseClientCredentialsResponse response now = .ok (t, q + now) := by
  simp [parseClientCredentialsResponse, jsonGet, hk, ht, he]

/-- For the client-credentials grant with a secret, `_request_token` reduces to the response
parser. -/
theorem request_token_cc (p : OAuthTokenProvider) (uc : Token × ℤ) (response : JsonObj)
    (now : ℤ) (sec : String) (hg : p.grant_type = .client_credentials)
    (hs : p.client_secret = some sec) :
    p.request_token uc response now = parseClientCredentialsResponse response now := by
  simp [OAuthTokenProvider.request_token, hg, hs]

/-! ## Theorems for the claims -/

/-- C1: `token()` acquires and stores the fresh `(token, expiry)` pair exactly when no record
is cached (truthily) or the cached expiry is below `now + 10` — the margin is the literal 10,
independent of the `_clock_skew` field — and otherwise returns the cached token with the state
unchanged; in particular a cached record with `valid_until < now + 10` is never served from
the cache. -/
theorem C1_token_refresh_iff (s : CachedTokenProvider) (now : ℤ) (t : Token) (v : ℤ) :
    (s.needsRefresh now = true ↔
      (truthyToken s.cached = false ∨ s.valid_until < now + 10)) ∧
    (∀ k : ℤ, CachedTokenProvider.needsRefresh { s with clock_skew := k } now =
      s.needsRefresh now) ∧
    (s.needsRefresh now = true →
      s.token now (.ok (t, v)) = (.ok t, { s with cached := some t, valid_until := v })) ∧
    (s.needsRefresh now = false →
      ∀ r, s.token now r = (.ok (s.cached.getD ""), s)) ∧
    (s.valid_until < now + 10 → (s.token now (.ok (t, v))).1 = .ok t) := by
  refine ⟨?_, fun k => rfl, ?_, ?_, ?_⟩
  · simp [CachedTokenProvider.needsRefresh, Bool.or_eq_true, Bool.not_eq_true',
      decide_eq_true_eq]
  · intro h
    simp [CachedTokenProvider.token, h]
  · intro h r
    simp [CachedTokenProvider.token, h]
  · intro h
    have hn : s.needsRefresh now = true := by
      simp [CachedTokenProvider.needsRefresh, h]
    simp [CachedTokenProvider.token, hn]

/-- C1 witness: a provider whose record expires in 12 seconds refreshes at `now = 5` and
stores the acquired pair. -/
theorem C1_token_refresh_iff_witness :
    CachedTokenProvider.token { cached := some "old", valid_until := 12 } 5 (.ok ("new", 99)) =
      (.ok "new", { cached := some "new", valid_until := 99 }) :=
  (C1_token_refresh_iff { cached := some "old", valid_until := 12 } 5 "new" 99).2.2.1 (by rfl)

/-- C2: when `_request_token` raises, `token()` propagates the same error and the cached
state is exactly the pre-call state, which still needs a refresh at any later time, so the
next call re-attempts acquisition. -/
theorem C2_acquire_failure_propagates (s : CachedTokenProvider) (now : ℤ) (e : PyError)
    (h : s.needsRefresh now = true) :
    s.token now (.error e) = (.error e, s) ∧
    ∀ now2, now ≤ now2 → s.needsRefresh now2 = true := by
  constructor
  · simp [CachedTokenProvider.token, h]
  · intro now2 hle
    rcases (Bool.or_eq_true _ _).mp h with h1 | h2
    · exact (Bool.or_eq_true _ _).mpr (Or.inl h1)
    · refine (Bool.or_eq_true _ _).mpr (Or.inr ?_)
      have := of_decide_eq_true h2
      exact decide_eq_true (by omega)

/-- C2 witness: a fresh provider propagates the endpoint's error payload, leaves the cache
unset, and still needs a refresh 5 seconds later. -/
theorem C2_acquire_failure_propagates_witness :
    CachedTokenProvider.token {} 0
        (.error (.foundryAPIError [("error", .str "invalid_client")])) =
      (.error (.foundryAPIError [("error", .str "invalid_client")]), {}) ∧
    CachedTokenProvider.needsRefresh {} 5 = true :=
  ⟨(C2_acquire_failure_propagates {} 0 (.foundryAPIError [("error", .str "invalid_client")])
      (by rfl)).1,
   (C2_acquire_failure_propagates {} 0 (.foundryAPIError [("error", .str "invalid_client")])
      (by rfl)).2 5 (by decide)⟩

/-- C9: `invalidate_cache` unconditionally unsets the cached token and sets the expiry to the
expired sentinel `-1`, and the `token()` call right after it performs exactly one acquisition,
whatever the prior state was. -/
theorem C9_invalidate_then_single_acquisition (s : CachedTokenProvider) (now : ℤ)
    (t : Token) (v : ℤ) :
    s.invalidate_cache.cached = none ∧
    s.invalidate_cache.valid_until = -1 ∧
    s.invalidate_cache.acquisitions now = 1 ∧
    s.invalidate_cache.token now (.ok (t, v)) =
      (.ok t, { s.invalidate_cache with cached := some t, valid_until := v }) := by
  refine ⟨rfl, rfl, rfl, rfl⟩

/-- C10: the cache-presence test is Python truthiness of `_cached`, so a cached empty-string
token counts as no record and `token()` re-acquires even while the stored expiry is still in
the future. -/
theorem C10_empty_token_reacquires (s : CachedTokenProvider) (now : ℤ) (t : Token) (v : ℤ)
    (hc : s.cached = some "") (hfuture : now + 10 ≤ s.valid_until) :
    s.needsRefresh now = true ∧
    s.acquisitions now = 1 ∧
    s.token now (.ok (t, v)) = (.ok t, { s with cached := some t, valid_until := v }) := by
  have hn : s.needsRefresh now = true := by
    simp only [CachedTokenProvider.needsRefresh, hc, truthyToken]
    rfl
  refine ⟨hn, ?_, ?_⟩
  · simp [CachedTokenProvider.acquisitions, hn]
  · simp [CachedTokenProvider.token, hn]

/-- C10 witness: a cached record with the empty token and expiry 10000 re-acquires at
`now = 0` although the stored expiry is far in the future. -/
theorem C10_empty_token_reacquires_witness :
    CachedTokenProvider.needsRefresh { cached := some "", valid_until := 10000 } 0 = true ∧
    CachedTokenProvider.token { cached := some "", valid_until := 10000 } 0 (.ok ("N", 50)) =
      (.ok "N", { cached := some "N", valid_until := 50 }) :=
  ⟨(C10_empty_token_reacquires { cached := some "", valid_until := 10000 } 0 "N" 50 rfl
      (by decide)).1,
   (C10_empty_token_reacquires { cached := some "", valid_until := 10000 } 0 "N" 50 rfl
      (by decide)).2.2⟩


/-- C3: for a client-credentials provider, `_request_token` raises `FoundryAPIError` carrying
the full JSON response body exactly when the response contains an `error` field; otherwise,
for a response carrying a string `access_token` and an integer `expires_in`, it returns that
token with the absolute expiry `now + expires_in`. -/
theorem C3_cc_response_parsing (p : OAuthTokenProvider) (uc : Token × ℤ)
    (response : JsonObj) (now : ℤ) (sec : String)
    (hg : p.grant_type = .client_credentials) (hs : p.client_secret = some sec) :
    ((∃ body, p.request_token uc response now = .error (.foundryAPIError body)) ↔
      jsonHasKey response "error" = true) ∧
    (jsonHasKey response "error" = true →
      p.request_token uc response now = .error (.foundryAPIError response)) ∧
    (∀ t q, jsonHasKey response "error" = false →
      jsonLookup response "access_token" = some (.str t) →
      jsonLookup response "expires_in" = some (.num q) →
      p.request_token uc response now = .ok (t, now + q)) := by
  have hreq := request_token_cc p uc response now sec hg hs
  refine ⟨⟨?_, ?_⟩, ?_, ?_⟩
  · rintro ⟨body, hb⟩
    rw [hreq] at hb
    by_contra hk
    exact parse_cc_no_api_error response now (Bool.not_eq_true _ ▸ hk) body hb
  · intro hk
    exact ⟨response, hreq.trans (parse_cc_api_error response now hk)⟩
  · intro hk
    exact hreq.trans (parse_cc_api_error response now hk)
  · intro t q hk ht he
    rw [hreq, parse_cc_success response now t q hk ht he, Int.add_comm]

/-- C3 witness: at `now = 5`, an error body raises `FoundryAPIError` on that body, and a
success body `access_token = "T1", expires_in = 3600` yields `("T1", 5 + 3600)`. -/
theorem C3_cc_response_parsing_witness :
    OAuthTokenProvider.request_token
        { host := ⟨"https://ex.com", "ex.com"⟩, grant_type := .client_credentials,
          client_id := "abc", client_secret := some "xyz", scopes := [] }
        ("u", 0) [("error", .str "invalid_client")] 5 =
      .error (.foundryAPIError [("error", .str "invalid_client")]) ∧
    OAuthTokenProvider.request_token
        { host := ⟨"https://ex.com", "ex.com"⟩, grant_type := .client_credentials,
          client_id := "abc", client_secret := some "xyz", scopes := [] }
        ("u", 0) [("access_token", .str "T1"), ("expires_in", .num 3600)] 5 =
      .ok ("T1", 5 + 3600) :=
  ⟨(C3_cc_response_parsing _ ("u", 0) [("error", .str "invalid_client")] 5 "xyz"
      rfl rfl).2.1 rfl,
   (C3_cc_response_parsing _ ("u", 0) [("access_token", .str "T1"), ("expires_in", .num 3600)]
      5 "xyz" rfl rfl).2.2 "T1" 3600 rfl rfl rfl⟩

/-- C4 as stated is false: with scope list `["a", "b"]` the `scope` form field the source
builds is the Python list itself (which requests encodes as repeated fields), not the
space-joined string `"a b"` the claim asserts. -/
theorem C4_counterexample :
    clientCredentialsRequest ⟨"https://ex.com", "ex.com"⟩ "abc" "xyz" ["a", "b"] ≠
      clientCredentialsRequestSpecJoined ⟨"https://ex.com", "ex.com"⟩ "abc" "xyz" ["a", "b"] := by
  intro h
  have hd := congrArg (fun o => (Option.map (fun r => r.data) o)) h
  simp only [clientCredentialsRequest, clientCredentialsRequestSpecJoined, latin1Encode] at hd
  simp at hd

/-- C4 amended: the outbound client-credentials request is a POST to
`{host}/multipass/api/oauth2/token` with content type `application/x-www-form-urlencoded`,
body fields `grant_type = "client_credentials"` and `scope` equal to the scope list itself
(which the HTTP library sends as repeated form fields, not space-joined), an authorization
header of `"Basic "` plus the base64 of the Latin-1 bytes of `client_id:client_secret`, and
a 30-second timeout. -/
theorem C4_request_shape (host : Host) (client_id client_secret : String)
    (scopes : List String) (bs : List ℕ)
    (h : latin1Encode (client_id ++ ":" ++ client_secret) = some bs) :
    clientCredentialsRequest host client_id client_secret scopes =
      some { method := "POST"
             url := host.url ++ "/multipass/api/oauth2/token"
             data := [("grant_type", .str "client_credentials"), ("scope", .list scopes)]
             headers := [("Content-Type", "application/x-www-form-urlencoded"),
               ("Authorization", "Basic " ++ b64encode bs)]
             timeout := 30 } := by
  simp [clientCredentialsRequest, h]

/-- C4 witness: the concrete request for `abc:xyz` and scopes `["a", "b"]`. -/
theorem C4_request_shape_witness :
    clientCredentialsRequest ⟨"https://ex.com", "ex.com"⟩ "abc" "xyz" ["a", "b"] =
      some { method := "POST"
             url := "https://ex.com" ++ "/multipass/api/oauth2/token"
             data := [("grant_type", .str "client_credentials"), ("scope", .list ["a", "b"])]
             headers := [("Content-Type", "application/x-www-form-urlencoded"),
               ("Authorization", "Basic " ++ b64encode [97, 98, 99, 58, 120, 121, 122])]
             timeout := 30 } :=
  C4_request_shape ⟨"https://ex.com", "ex.com"⟩ "abc" "xyz" ["a", "b"]
    [97, 98, 99, 58, 120, 121, 122] rfl

/-- C5: `requests_auth_handler` sets the header `authorization` to exactly `Bearer <token>`
when no authorization header is present under any casing, changes nothing else (all other
headers are kept in place), and leaves a pre-existing authorization header untouched. -/
theorem C5_auth_handler (tok : Token) (hs : List (String × String)) :
    (ciLookup hs "authorization" = none →
      TokenProvider.requests_auth_handler tok hs =
        hs ++ [("authorization", "Bearer " ++ tok)]) ∧
    (∀ v, ciLookup hs "authorization" = some v →
      TokenProvider.requests_auth_handler tok hs = hs) := by
  constructor
  · intro h
    simp [TokenProvider.requests_auth_handler, ciSetdefault, h]
  · intro v h
    simp [TokenProvider.requests_auth_handler, ciSetdefault, h]

/-- C5 witness: with no authorization header the bearer header is appended and the other
header kept; a capitalized `Authorization` header (case-insensitive match) is left alone. -/
theorem C5_auth_handler_witness :
    TokenProvider.requests_auth_handler "T1" [("accept", "json")] =
      [("accept", "json"), ("authorization", "Bearer " ++ "T1")] ∧
    TokenProvider.requests_auth_handler "T1" [("Authorization", "Bearer old")] =
      [("Authorization", "Bearer old")] :=
  ⟨(C5_auth_handler "T1" [("accept", "json")]).1 rfl,
   (C5_auth_handler "T1" [("Authorization", "Bearer old")]).2 "Bearer old" rfl⟩

/-- C6: constructing `OAuthTokenProvider` with the client-credentials grant and no client
secret raises `TokenProviderConfigError` at construction (before any acquisition); with any
other recognized effective grant type an absent secret is accepted. -/
theorem C6_cc_secret_mandatory (host : Host) (client_id : String) :
    (∀ scopes, OAuthTokenProvider.init host client_id none (some .client_credentials) scopes =
      .error (.tokenProviderConfigError
        "You need to provide a client secret for the client credentials grant type.")) ∧
    (∀ gt scopes, gt.getD .authorization_code ≠ .client_credentials →
      ∃ p, OAuthTokenProvider.init host client_id none gt scopes = .ok p) := by
  constructor
  · intro scopes
    rfl
  · intro gt scopes hgt
    rcases hres : OAuthTokenProvider.init host client_id none gt scopes with e | p
    · exfalso
      simp only [OAuthTokenProvider.init] at hres
      rw [if_neg (by simp [hgt])] at hres
      exact Except.noConfusion hres
    · exact ⟨p, rfl⟩

/-- C6 witness: `client_secret = None` errors for client-credentials and is accepted for the
default (authorization-code) grant. -/
theorem C6_cc_secret_mandatory_witness :
    OAuthTokenProvider.init ⟨"https://ex.com", "ex.com"⟩ "abc" none
        (some .client_credentials) none =
      .error (.tokenProviderConfigError
        "You need to provide a client secret for the client credentials grant type.") ∧
    ∃ p, OAuthTokenProvider.init ⟨"https://ex.com", "ex.com"⟩ "abc" none none none = .ok p :=
  ⟨(C6_cc_secret_mandatory ⟨"https://ex.com", "ex.com"⟩ "abc").1 none,
   (C6_cc_secret_mandatory ⟨"https://ex.com", "ex.com"⟩ "abc").2 none none (by simp)⟩

/-- C7: `AppServiceTokenProvider._request_token` always raises the refresh-the-page
configuration error, and for a provider built by `__init__` (whose record expires one hour
after construction) every `token()` call made once the record is deemed expired raises that
same error. -/
theorem C7_app_service_refresh_fails :
    AppServiceTokenProvider.request_token =
      .error (.tokenProviderConfigError "Token is expired. Please refresh the web page.") ∧
    ∀ ctime ws fl s, AppServiceTokenProvider.init ctime ws fl = .ok s →
      s.valid_until = ctime + 3600 ∧
      ∀ now, s.valid_until < now + 10 →
        s.token now AppServiceTokenProvider.request_token =
          (.error (.tokenProviderConfigError "Token is expired. Please refresh the web page."),
            s) := by
  refine ⟨rfl, ?_⟩
  intro ctime ws fl s hinit
  have hval : s.valid_until = ctime + 3600 := by
    unfold AppServiceTokenProvider.init at hinit
    rcases hws : AppServiceTokenProvider.headerToken ws with _ | t <;> rw [hws] at hinit
    · rcases hfl : AppServiceTokenProvider.headerToken fl with _ | t <;> rw [hfl] at hinit
      · simp at hinit
      · cases hinit
        rfl
    · cases hinit
      rfl
  refine ⟨hval, ?_⟩
  intro now hexp
  simp [CachedTokenProvider.token, needsRefresh_of_lt s now hexp,
    AppServiceTokenProvider.request_token]

/-- C7 witness: a header `"H1"` found at construction time 0 gives a record valid until 3600,
and at `now = 10000` the `token()` call raises the refresh error. -/
theorem C7_app_service_refresh_fails_witness :
    AppServiceTokenProvider.request_token =
      .error (.tokenProviderConfigError "Token is expired. Please refresh the web page.") ∧
    CachedTokenProvider.token { cached := some "H1", valid_until := 3600 } 10000
        AppServiceTokenProvider.request_token =
      (.error (.tokenProviderConfigError "Token is expired. Please refresh the web page."),
        { cached := some "H1", valid_until := 3600 }) :=
  ⟨C7_app_service_refresh_fails.1,
   ((C7_app_service_refresh_fails.2 0 (some [("x-foundry-accesstoken", "H1")]) none
      { cached := some "H1", valid_until := 3600 } rfl).2 10000 (by decide))⟩

/-- C8: with no explicit scope list the authorization-code grant uses exactly the fixed
built-in default list in its source order and the client-credentials grant uses the empty
list; an explicitly supplied scope list is used as given. -/
theorem C8_scope_defaults (host : Host) (client_id : String) :
    (∀ sec p,
      OAuthTokenProvider.init host client_id sec (some .authorization_code) none = .ok p →
      p.scopes = ["offline_access", "compass:view", "compass:edit", "compass:discover",
        "api:write-data", "api:read-data", "build2:run-build-using-service"]) ∧
    (∀ sec p,
      OAuthTokenProvider.init host client_id (some sec) (some .client_credentials) none =
        .ok p → p.scopes = []) ∧
    (∀ gt sec scopes p,
      OAuthTokenProvider.init host client_id sec gt (some scopes) = .ok p →
      p.scopes = scopes) := by
  refine ⟨?_, ?_, ?_⟩
  · intro sec p hp
    cases hp
    rfl
  · intro sec p hp
    cases hp
    rfl
  · intro gt sec scopes p hp
    simp only [OAuthTokenProvider.init] at hp
    by_cases hc : gt.getD .authorization_code = .client_credentials ∧ sec = none
    · rw [if_pos hc] at hp
      exact absurd hp (by simp)
    · rw [if_neg hc] at hp
      cases hp
      by_cases hg : gt.getD .authorization_code = .authorization_code
      · simp [hg]
      · cases scopes <;> simp [hg, pyListOr]

/-- C8 witness: the three scope defaults at concrete inputs. -/
theorem C8_scope_defaults_witness :
    (OAuthTokenProvider.init ⟨"https://ex.com", "ex.com"⟩ "abc" none
        (some .authorization_code) none).map (fun p => p.scopes) =
      .ok ["offline_access", "compass:view", "compass:edit", "compass:discover",
        "api:write-data", "api:read-data", "build2:run-build-using-service"] ∧
    (OAuthTokenProvider.init ⟨"https://ex.com", "ex.com"⟩ "abc" (some "xyz")
        (some .client_credentials) none).map (fun p => p.scopes) = .ok [] ∧
    (OAuthTokenProvider.init ⟨"https://ex.com", "ex.com"⟩ "abc" (some "xyz")
        (some .client_credentials) (some ["s1", "s2"])).map (fun p => p.scopes) =
      .ok ["s1", "s2"] := by
  have h1 := (C8_scope_defaults ⟨"https://ex.com", "ex.com"⟩ "abc").1 none _ rfl
  have h2 := (C8_scope_defaults ⟨"https://ex.com", "ex.com"⟩ "abc").2.1 "xyz" _ rfl
  have h3 := (C8_scope_defaults ⟨"https://ex.com", "ex.com"⟩ "abc").2.2
    (some .client_credentials) (some "xyz") ["s1", "s2"] _ rfl
  refine ⟨?_, ?_, ?_⟩
  · rw [← h1]
    rfl
  · rw [← h2]
    rfl
  · rw [← h3]
    rfl
